import Mathlib

/-!
Shallow embedding of the classification demo (`demo.py`) and the image
captioning flow (`image.py`) of the repository.

The embedding translates the Python source into executable Lean
definitions: strings are Lean `String`s (lists of characters), Python
floats are idealised as rationals `ℚ` (the numeric literals the program
manipulates — 0.0, 0.3, 0.5, 0.6, and JSON numbers — are exact decimal
values, so no rounding behaviour is relevant to the properties proved
here), HTTP effects are an explicit outcome datatype, and Python
exceptions escaping a function are `Option.none`.
-/

namespace Demo

/-! ### Python string primitives -/

/-- Whitespace characters removed by Python's `str.strip()` (ASCII part;
Python also strips some further Unicode space characters, which no input
in this development contains). -/
def isPyWs (c : Char) : Bool :=
  c = ' ' || c = '\t' || c = '\n' || c = '\r' || c = '\x0b' || c = '\x0c'

/-- `str.strip()` on a list of characters: drop whitespace from both ends. -/
def stripList (l : List Char) : List Char :=
  ((l.dropWhile isPyWs).reverse.dropWhile isPyWs).reverse

/-- Python `s.strip()`. -/
def pyStrip (s : String) : String := ⟨stripList s.data⟩

/-- ASCII lower-casing of one character, as Python's `str.lower()` does on
ASCII (Python also lower-cases non-ASCII letters; the labels and model
outputs exercised here are ASCII). -/
def lowerChar (c : Char) : Char :=
  if 'A' ≤ c && c ≤ 'Z' then Char.ofNat (c.toNat + 32) else c

/-- Python `s.lower()` (ASCII model). -/
def asciiLower (s : String) : String := ⟨s.data.map lowerChar⟩

/-- Does the list start with `needle`? -/
def startsWithL : List Char → List Char → Bool
  | [], _ => true
  | _ :: _, [] => false
  | a :: as, b :: bs => a = b && startsWithL as bs

/-- Does `needle` occur as a contiguous sublist of the haystack?
Models Python's `needle in haystack` on strings. -/
def containsSub (needle : List Char) : List Char → Bool
  | [] => needle.isEmpty
  | c :: t => startsWithL needle (c :: t) || containsSub needle t

/-- Python `needle in hay` for strings. -/
def strIn (needle hay : String) : Bool := containsSub needle.data hay.data

/-- Python `sep.join(xs)`. -/
def joinSep (sep : String) : List String → String
  | [] => ""
  | [x] => x
  | x :: y :: t => x ++ sep ++ joinSep sep (y :: t)

/-! ### JSON values (the result of Python's `json.loads`) -/

/-- An exact decimal number `num / 10 ^ exp10`, the value of a JSON or
Python decimal literal.  Python decodes these to `int`/`float`; they are
idealised here as exact decimals (every number exercised by the program
— 0.0, 0.3, 0.5, 0.6, 0.9 and small integers — is exactly
representable, so no binary rounding behaviour is relevant). -/
structure JNum where
  num : Int
  exp10 : Nat
deriving DecidableEq

/-- The rational value of a decimal number. -/
def JNum.toQ (j : JNum) : ℚ := (j.num : ℚ) / 10 ^ j.exp10

/-- A decoded JSON value.  Python's non-standard `NaN`/`Infinity`
extensions are not modelled (no claim exercises them). -/
inductive Json where
  | null
  | bool (b : Bool)
  | num (j : JNum)
  | str (s : String)
  | arr (elems : List Json)
  | obj (members : List (String × Json))

/-- Python `dict` lookup for an object decoded by `json.loads`: on
duplicate keys the **last** binding wins, matching `json.loads`'s
construction of the dict. -/
def lookupLast (kvs : List (String × Json)) (k : String) : Option Json :=
  match kvs with
  | [] => none
  | (k', v) :: t =>
    match lookupLast t k with
    | some v' => some v'
    | none => if k' = k then some v else none

/-- Python truthiness of a decoded JSON value (used by `x or ""`). -/
def pyTruthy : Json → Bool
  | .null => false
  | .bool b => b
  | .num j => j.num != 0
  | .str s => s != ""
  | .arr xs => !xs.isEmpty
  | .obj kvs => !kvs.isEmpty

/-! ### Python `str(x)` on decoded JSON values -/

/-- Simplified numeric rendering for `str`/`repr` of a decoded number.
Python renders ints and floats with distinct textual forms (`2` vs `2.0`);
that distinction is below the resolution of this model and no claim
exercises a non-string `label` field. -/
def ratRender (j : JNum) : String :=
  if j.exp10 = 0 then toString j.num
  else toString j.num ++ "e-" ++ toString j.exp10

mutual

/-- Python `repr` of a decoded JSON value (string quoting simplified to
plain single quotes; only the top-level string case is exercised by the
program's data). -/
def pyRepr : Json → String
  | .null => "None"
  | .bool true => "True"
  | .bool false => "False"
  | .num q => ratRender q
  | .str s => "'" ++ s ++ "'"
  | .arr xs => "[" ++ pyReprElems xs ++ "]"
  | .obj kvs => "\x7b" ++ pyReprMembers kvs ++ "\x7d"

/-- Comma-separated `repr`s of list elements. -/
def pyReprElems : List Json → String
  | [] => ""
  | [x] => pyRepr x
  | x :: y :: t => pyRepr x ++ ", " ++ pyReprElems (y :: t)

/-- Comma-separated `repr`s of dict items. -/
def pyReprMembers : List (String × Json) → String
  | [] => ""
  | [(k, v)] => "'" ++ k ++ "': " ++ pyRepr v
  | (k, v) :: m :: t => "'" ++ k ++ "': " ++ pyRepr v ++ ", " ++ pyReprMembers (m :: t)

end

/-- Python `str(x)` on a decoded JSON value: identity on strings,
`repr`-like rendering otherwise.  `str` never raises. -/
def pyStr : Json → String
  | .str s => s
  | v => pyRepr v

/-! ### Python `float(x)` -/

/-- Is `c` an ASCII digit? -/
def isDigit (c : Char) : Bool := '0' ≤ c && c ≤ '9'

/-- The natural number written by a list of ASCII digits. -/
def natOfDigits (ds : List Char) : Nat :=
  ds.foldl (fun n c => n * 10 + (c.toNat - 48)) 0

/-- Mantissa of a decimal literal: `digits [. digits]`, `digits.`, or
`.digits`; at least one digit required.  Returns the mantissa digits as
a natural number together with the count of fraction digits, and the
rest of the input. -/
def parseMantissa (l : List Char) : Option ((Nat × Nat) × List Char) :=
  let (ip, r1) := l.span isDigit
  match r1 with
  | '.' :: t =>
    let (fp, r2) := t.span isDigit
    if ip.isEmpty && fp.isEmpty then none
    else some ((natOfDigits (ip ++ fp), fp.length), r2)
  | r => if ip.isEmpty then none else some ((natOfDigits ip, 0), r)

/-- Assemble a decimal value from sign, mantissa digits `m`, fraction
digit count `fd` and decimal exponent `e`:  the value `±m · 10^(e-fd)`. -/
def assembleNum (neg : Bool) (m : Nat) (fd : Nat) (e : Int) : JNum :=
  let sm : Int := if neg then -(m : Int) else (m : Int)
  let net : Int := e - (fd : Int)
  if 0 ≤ net then ⟨sm * (10 : Int) ^ net.toNat, 0⟩ else ⟨sm, (-net).toNat⟩

/-- Optional exponent suffix `e[sign]digits` of a Python float literal. -/
def parseExpSuffix : List Char → Option (Int × List Char)
  | [] => some (0, [])
  | c :: t =>
    if c = 'e' || c = 'E' then
      match t with
      | '-' :: u =>
        let (ds, r) := u.span isDigit
        if ds.isEmpty then none else some (-(natOfDigits ds : Int), r)
      | '+' :: u =>
        let (ds, r) := u.span isDigit
        if ds.isEmpty then none else some ((natOfDigits ds : Int), r)
      | u =>
        let (ds, r) := u.span isDigit
        if ds.isEmpty then none else some ((natOfDigits ds : Int), r)
    else some (0, c :: t)

/-- Python `float(s)` on a string: surrounding whitespace ignored, then
`[sign] mantissa [exponent]`.  The `inf`/`infinity`/`nan` words and
digit-group underscores that CPython additionally accepts are not
modelled (they produce values outside ℚ or are untypical inputs; no
claim exercises them). -/
def pyFloatString (s : String) : Option JNum := do
  let l := stripList s.data
  let (neg, l1) : Bool × List Char :=
    match l with
    | '-' :: t => (true, t)
    | '+' :: t => (false, t)
    | t => (false, t)
  let ((m, fd), r1) ← parseMantissa l1
  let (e, r2) ← parseExpSuffix r1
  if r2.isEmpty then pure (assembleNum neg m fd e) else none

/-- Python `float(x)` on a decoded JSON value: numbers pass through,
booleans coerce to 0/1, strings are parsed as decimal literals;
`None`, lists and dicts raise `TypeError` (modelled as `none`). -/
def floatConv : Json → Option JNum
  | .num j => some j
  | .bool b => some (if b then ⟨1, 0⟩ else ⟨0, 0⟩)
  | .str s => pyFloatString s
  | _ => none

/-! ### `json.loads` — a strict JSON parser

Fuel-indexed recursive descent over the character list; `json_loads`
supplies fuel `length + 1`, which suffices because every recursive call
is made after consuming at least one character. -/

/-- The whitespace `json.loads` skips between tokens. -/
def isJsonWs (c : Char) : Bool := c = ' ' || c = '\t' || c = '\n' || c = '\r'

/-- Skip inter-token whitespace. -/
def skipWs (l : List Char) : List Char := l.dropWhile isJsonWs

/-- Value of one hexadecimal digit. -/
def hexVal (c : Char) : Option Nat :=
  if '0' ≤ c && c ≤ '9' then some (c.toNat - 48)
  else if 'a' ≤ c && c ≤ 'f' then some (c.toNat - 87)
  else if 'A' ≤ c && c ≤ 'F' then some (c.toNat - 55)
  else none

/-- Single-character JSON string escapes. -/
def escChar : Char → Option Char
  | '"' => some '"'
  | '\\' => some '\\'
  | '/' => some '/'
  | 'b' => some '\x08'
  | 'f' => some '\x0c'
  | 'n' => some '\n'
  | 'r' => some '\r'
  | 't' => some '\t'
  | _ => none

/-- Body of a JSON string, after the opening quote: returns the decoded
characters and the input after the closing quote.  Raw control
characters are refused (strict mode), `\uXXXX` escapes are decoded;
surrogate code units are refused (Python tolerates lone surrogates,
which a Lean `Char` cannot carry — not exercised by any claim). -/
def parseJStringBody : Nat → List Char → Option (List Char × List Char)
  | 0, _ => none
  | _ + 1, [] => none
  | fuel + 1, c :: t =>
    if c = '"' then some ([], t)
    else if c = '\\' then
      match t with
      | 'u' :: h1 :: h2 :: h3 :: h4 :: t2 => do
        let d1 ← hexVal h1
        let d2 ← hexVal h2
        let d3 ← hexVal h3
        let d4 ← hexVal h4
        let n := ((d1 * 16 + d2) * 16 + d3) * 16 + d4
        if n < 0xd800 ∨ (0xdfff < n ∧ n < 0x110000) then
          let (r, rest) ← parseJStringBody fuel t2
          pure (Char.ofNat n :: r, rest)
        else none
      | e :: t2 => do
        let ec ← escChar e
        let (r, rest) ← parseJStringBody fuel t2
        pure (ec :: r, rest)
      | [] => none
    else if c.toNat < 32 then none
    else do
      let (r, rest) ← parseJStringBody fuel t
      pure (c :: r, rest)

/-- Integer part of a JSON number: `0`, or a nonzero digit followed by
digits (leading zeros refused, as in strict JSON). -/
def parseIntPart : List Char → Option (Nat × List Char)
  | [] => none
  | c :: t =>
    if c = '0' then some (0, t)
    else if isDigit c then
      let (ds, r) := t.span isDigit
      some (natOfDigits (c :: ds), r)
    else none

/-- Optional fraction part `.digits` of a JSON number: the fraction
digits as a natural number with their count. -/
def parseFracPart : List Char → Option ((Nat × Nat) × List Char)
  | '.' :: t =>
    let (ds, r) := t.span isDigit
    if ds.isEmpty then none
    else some ((natOfDigits ds, ds.length), r)
  | l => some ((0, 0), l)

/-- A JSON number `-?int frac? exp?` as an exact decimal. -/
def parseJsonNumber (l : List Char) : Option (JNum × List Char) := do
  let (neg, l1) : Bool × List Char :=
    match l with
    | '-' :: t => (true, t)
    | t => (false, t)
  let (ip, r1) ← parseIntPart l1
  let ((fn, fd), r2) ← parseFracPart r1
  let (e, r3) ← parseExpSuffix r2
  pure (assembleNum neg (ip * 10 ^ fd + fn) fd e, r3)

mutual

/-- One JSON value, preceded by optional whitespace.  Python's
non-standard `NaN`/`Infinity`/`-Infinity` literals are refused (they
decode to non-rational floats; no claim exercises them, and every use
site sends non-dict values to the same failure path regardless). -/
def parseValue : Nat → List Char → Option (Json × List Char)
  | 0, _ => none
  | fuel + 1, l =>
    match skipWs l with
    | [] => none
    | c :: t =>
      if c = '\x7b' then
        match skipWs t with
        | '\x7d' :: r => some (.obj [], r)
        | t2 => (parseMembers fuel t2).map (fun (ms, r) => (.obj ms, r))
      else if c = '[' then
        match skipWs t with
        | ']' :: r => some (.arr [], r)
        | t2 => (parseElements fuel t2).map (fun (xs, r) => (.arr xs, r))
      else if c = '"' then
        (parseJStringBody (t.length + 1) t).map (fun (cs, r) => (.str ⟨cs⟩, r))
      else if c = 't' then
        match t with
        | 'r' :: 'u' :: 'e' :: r => some (.bool true, r)
        | _ => none
      else if c = 'f' then
        match t with
        | 'a' :: 'l' :: 's' :: 'e' :: r => some (.bool false, r)
        | _ => none
      else if c = 'n' then
        match t with
        | 'u' :: 'l' :: 'l' :: r => some (.null, r)
        | _ => none
      else if c = '-' || isDigit c then
        (parseJsonNumber (c :: t)).map (fun (q, r) => (.num q, r))
      else none

/-- Members of an object, after the opening brace of a non-empty object. -/
def parseMembers : Nat → List Char → Option (List (String × Json) × List Char)
  | 0, _ => none
  | fuel + 1, l =>
    match skipWs l with
    | '"' :: t => do
      let (kcs, r1) ← parseJStringBody (t.length + 1) t
      match skipWs r1 with
      | ':' :: r2 => do
        let (v, r3) ← parseValue fuel r2
        match skipWs r3 with
        | ',' :: r4 => do
          let (ms, r5) ← parseMembers fuel r4
          pure ((⟨kcs⟩, v) :: ms, r5)
        | '\x7d' :: r4 => pure ([(⟨kcs⟩, v)], r4)
        | _ => none
      | _ => none
    | _ => none

/-- Elements of an array, after the opening bracket of a non-empty array. -/
def parseElements : Nat → List Char → Option (List Json × List Char)
  | 0, _ => none
  | fuel + 1, l => do
    let (v, r1) ← parseValue fuel l
    match skipWs r1 with
    | ',' :: r2 => do
      let (xs, r3) ← parseElements fuel r2
      pure (v :: xs, r3)
    | ']' :: r2 => pure ([v], r2)
    | _ => none

end

/-- Python `json.loads s`: one complete JSON value with nothing but
whitespace around it; `none` models the raised `JSONDecodeError`. -/
def json_loads (s : String) : Option Json :=
  match parseValue (s.length + 1) s.data with
  | some (v, rest) => if (skipWs rest).isEmpty then some v else none
  | none => none

/-! ### Response Interpreter (demo.py lines 58–73) -/

/-- The strict branch of the response interpretation (demo.py 59–62):
`data = json.loads(out)`, `label = str(data.get("label", "Other"))`,
`confidence = float(data.get("confidence", 0.5))`.  `none` models any
exception inside the `try` (parse failure, `.get` on a non-dict value,
a `float` conversion that raises), which sends the code to the
heuristic fallback. -/
def strictParse (out : String) : Option (String × ℚ) :=
  match json_loads out with
  | some (.obj kvs) =>
    match floatConv ((lookupLast kvs "confidence").getD (.num ⟨5, 1⟩)) with
    | some j => some (pyStr ((lookupLast kvs "label").getD (.str "Other")), j.toQ)
    | none => none
  | _ => none

/-- The heuristic fallback loop (demo.py 64–71): starting from
`("Other", 0.3)`, scan `label_list` in the caller-supplied order and
stop at the first label whose lower-cased form is a substring of the
(already lower-cased) raw text, taking it with confidence 0.6. -/
def heuristicScan : List String → String → String × ℚ
  | [], _ => ("Other", 3/10)
  | L :: rest, low =>
    if strIn (asciiLower L) low then (L, 3/5) else heuristicScan rest low

/-- Interpretation of the raw model output (demo.py 58–73): the strict
JSON branch, with the substring heuristic as fallback. -/
def interpret (out : String) (label_list : List String) : String × ℚ :=
  match strictParse out with
  | some lc => lc
  | none => heuristicScan label_list (asciiLower out)

/-! ### Inference client (demo.py 8, 36–56) -/

/-- Base URL of the local endpoint (demo.py line 8). -/
def OLLAMA_BASE : String := "http://127.0.0.1:11434"

/-- The outcome of the HTTP POST as the Python caller observes it:
either a transport-level failure (connection refused, timeout, DNS —
`msg` is the exception's text), or a response bearing a status code and
a body. -/
inductive HttpOutcome where
  | transportError (msg : String)
  | response (status : Nat) (body : String)

/-- The failure outcomes of the text-classification POST: any
transport-level failure, or a response whose status `raise_for_status()`
treats as an error (4xx/5xx; requests raises on 400–599 and on nothing
else — informational and redirect statuses are not failures). -/
def isFailureOutcome : HttpOutcome → Prop
  | .transportError _ => True
  | .response code _ => 400 ≤ code ∧ code < 600

/-- The diagnostic raised for a 404 (demo.py 47–51). -/
def notFound404Msg : String :=
  "Ollama API path not found (404). Is the server running at " ++ OLLAMA_BASE ++
    "? Try `ollama serve` or set OLLAMA_BASE."

/-- The text of the `HTTPError` that `resp.raise_for_status()` raises
for a status code in 400–599.  The model keeps the code and the request
URL; requests' exact phrasing (`"%s Client Error: %s for url: %s"`) is
not load-bearing for any claim. -/
def httpStatusMsg (code : Nat) : String :=
  toString code ++ " Error for url: " ++ OLLAMA_BASE ++ "/api/generate"

/-- The success path of `classify_text` (demo.py 56–73):
`out = resp.json().get("response", "").strip()` — this line sits
*outside* the `try`, so a non-JSON body, a non-dict body, or a
non-string `response` value raises out of `classify_text` (modelled as
`none`) — then `interpret`, then `return label, confidence, out`. -/
def handleSuccessBody (label_list : List String) (body : String) :
    Option (String × ℚ × String) :=
  match json_loads body with
  | some (.obj kvs) =>
    match (lookupLast kvs "response").getD (.str "") with
    | .str s =>
      some ((interpret (pyStrip s) label_list).1,
            (interpret (pyStrip s) label_list).2, pyStrip s)
    | _ => none
  | _ => none

/-- demo.py 36–73, given the caller's label set and the outcome of the
HTTP exchange.  A transport failure, a 404, or `raise_for_status()` on
a 400–599 status is caught at demo.py 53 and becomes
`("ERROR", 0.0, "Request failed: " ++ …)`; otherwise the success path
runs. -/
def classify_text (label_list : List String) (h : HttpOutcome) :
    Option (String × ℚ × String) :=
  match h with
  | .transportError e => some ("ERROR", 0, "Request failed: " ++ e)
  | .response code body =>
    if code = 404 then some ("ERROR", 0, "Request failed: " ++ notFound404Msg)
    else if 400 ≤ code ∧ code < 600 then
      some ("ERROR", 0, "Request failed: " ++ httpStatusMsg code)
    else handleSuccessBody label_list body

/-! ### Prompt Builder (demo.py 24–34) -/

/-- The f-string rendering `f"{label_list}"` of a Python list of
strings: bracketed, comma-separated, each element in single quotes
(Python `repr` escaping of quotes/backslashes inside a label is
simplified away; the labels the program deals in are plain words). -/
def pyReprStrList (xs : List String) : String :=
  "[" ++ joinSep ", " (xs.map fun x => "'" ++ x ++ "'") ++ "]"

/-- The fixed instruction block (demo.py 24–29). -/
def systemBlock (label_list : List String) : String :=
  "You are an expert email text classifier.\n" ++
  "Choose exactly one label from " ++ pyReprStrList label_list ++ ".\n" ++
  "Respond ONLY as compact JSON: \x7b\"label\":\"<one>\",\"confidence\":0-1\x7d.\n" ++
  "Do not include extra keys or explanations"

/-- The few-shot block (demo.py 30–32): one `Text:`/`Label:` pair per
example, joined by newlines. -/
def shotsBlock (few_shots : List (String × String)) : String :=
  joinSep "\n" (few_shots.map fun s => "Text: " ++ s.1 ++ "\nLabel: " ++ s.2)

/-- The query line (demo.py 33). -/
def userBlock (text : String) : String := "Text: " ++ text ++ "\nLabel:"

/-- The assembled prompt (demo.py 34):
`f"<<SYS>>{system}<<SYS>>\n\n{shots}\n\n{user}".strip()`. -/
def buildPrompt (text : String) (label_list : List String)
    (few_shots : List (String × String)) : String :=
  pyStrip ("<<SYS>>" ++ systemBlock label_list ++ "<<SYS>>\n\n" ++
    shotsBlock few_shots ++ "\n\n" ++ userBlock text)

/-! ### The classification request (demo.py 37–46) -/

/-- The decoding options dict sent with every classification request. -/
structure GenerateOptions where
  temperature : JNum
  num_ctx : Nat
deriving DecidableEq

/-- The HTTP POST issued by `classify_text` (demo.py 37–46): target
URL, JSON-body fields, and the timeout handed to `requests.post`. -/
structure GenerateRequest where
  url : String
  model : String
  prompt : String
  options : GenerateOptions
  stream : Bool
  timeoutSeconds : Nat
deriving DecidableEq

/-- The single request `classify_text` issues for a given model, input
text, label set and few-shot examples. -/
def classifyRequest (model text : String) (label_list : List String)
    (few_shots : List (String × String)) : GenerateRequest :=
  { url := OLLAMA_BASE ++ "/api/generate"
    model := model
    prompt := buildPrompt text label_list few_shots
    options := { temperature := ⟨0, 0⟩, num_ctx := 2048 }
    stream := false
    timeoutSeconds := 120 }

/-- The JSON body of a generate request: exactly the dict literal of
demo.py 39–44. -/
def requestBodyJson (r : GenerateRequest) : Json :=
  .obj [("model", .str r.model),
        ("prompt", .str r.prompt),
        ("options", .obj [("temperature", .num r.options.temperature),
                          ("num_ctx", .num ⟨(r.options.num_ctx : Int), 0⟩)]),
        ("stream", .bool r.stream)]

/-! ### Label Store (demo.py 149–171) -/

/-- A record saved from the manual-label tab: the four values fed to
`writer.writerow` at demo.py 163–168, before stripping. -/
structure LabeledRecord where
  text : String
  label : String
  subject : String
  sender : String

/-- The four CSV fields actually written for a record (demo.py
163–168): text, subject and sender are stripped; the label is written
as chosen. -/
def recordFields (r : LabeledRecord) : List String :=
  [pyStrip r.text, r.label, pyStrip r.subject, pyStrip r.sender]

/-- Does `csv.writer` (default dialect, QUOTE_MINIMAL) have to quote
the field? -/
def csvNeedsQuote (s : String) : Bool :=
  s.data.any fun c => c = ',' || c = '"' || c = '\r' || c = '\n'

/-- Quote-doubling inside a quoted field. -/
def csvEscape (l : List Char) : List Char :=
  (l.map fun c => if c = '"' then ['"', '"'] else [c]).flatten

/-- One field as `csv.writer` emits it. -/
def csvField (s : String) : String :=
  if csvNeedsQuote s then "\"" ++ (⟨csvEscape s.data⟩ : String) ++ "\"" else s

/-- One CSV row: comma-joined fields terminated by `\r\n` (the default
`lineterminator`). -/
def csvRow (fields : List String) : String :=
  joinSep "," (fields.map csvField) ++ "\r\n"

/-- The header row that `writer.writeheader()` writes. -/
def csvHeader : String := csvRow ["text", "label", "subject", "from"]

/-- A field free of the CSV metacharacters (delimiter, quote char, and
the line-terminator characters): exactly the fields `csv.writer` emits
unquoted. -/
def cleanField (s : String) : Prop :=
  ∀ c ∈ s.data, c ≠ ',' ∧ c ≠ '"' ∧ c ≠ '\r' ∧ c ≠ '\n'

/-- The save handler's write (demo.py 155–168) as a transformation of
the contents at the output path: `existing = none` models a missing
file (`not os.path.exists(csv_path)`), in which case the header is
written first; the record's row is appended in either case (the file
is opened in mode `"a"`).  The guards at 150–153 (blank text, missing
label) are preconditions of reaching this write. -/
def saveLabeled (existing : Option String) (r : LabeledRecord) : String :=
  let row := csvRow (recordFields r)
  match existing with
  | none => csvHeader ++ row
  | some content => content ++ row

/-! ### Image captioning flow (image.py) -/

/-- Outcome of `Image.open` + `ImageOps.exif_transpose` on the uploaded
bytes (image.py 25–30): success, or the decode exception's text. -/
inductive DecodeOutcome where
  | ok
  | fail (msg : String)

/-- What the captioning flow reports to the user. -/
inductive CaptionReport where
  | decodeError (msg : String)
  | captionShown (caption : String)
  | noCaption
  | requestFailed (msg : String)
deriving DecidableEq

/-- The message text of a success body that `r.json()` cannot decode (a
`requests.JSONDecodeError`, which the `requests.RequestException`
handler catches); its exact wording is not load-bearing. -/
def jsonBodyErrMsg : String := "Expecting value: line 1 column 1 (char 0)"

/-- The caption request/response handler (image.py 68–87):
`raise_for_status()`, then
`caption = (r.json().get("response") or "").strip()`; a non-empty
caption is shown, an empty one yields the non-fatal
`"No caption returned."` warning, and any `requests.RequestException`
(transport failure, HTTP error status, undecodable body) is caught and
shown as `"Ollama request failed: …"`.  A decoded body that is not a
dict, or a truthy non-string `response` value, raises an
`AttributeError` that nothing catches (`none`). -/
def captionHandle (h : HttpOutcome) : Option CaptionReport :=
  match h with
  | .transportError e => some (.requestFailed ("Ollama request failed: " ++ e))
  | .response code body =>
    if 400 ≤ code ∧ code < 600 then
      some (.requestFailed ("Ollama request failed: " ++ httpStatusMsg code))
    else
      match json_loads body with
      | some (.obj kvs) =>
        match (if pyTruthy ((lookupLast kvs "response").getD .null) then
                 (lookupLast kvs "response").getD .null
               else .str "") with
        | .str s =>
          some (if pyStrip s ≠ "" then .captionShown (pyStrip s) else .noCaption)
        | _ => none
      | some _ => none
      | none => some (.requestFailed ("Ollama request failed: " ++ jsonBodyErrMsg))

/-- The per-upload flow (image.py 20–87), from the decode outcome to
what is reported, paired with whether a caption request was issued to
the endpoint.  On decode failure the handler at image.py 28–30 shows
the error and calls `st.stop()`: nothing further runs, so no request is
sent.  `reply` is the environment's response, consulted only when a
request is issued. -/
def imageFlow (d : DecodeOutcome) (reply : HttpOutcome) :
    Option CaptionReport × Bool :=
  match d with
  | .fail msg => (some (.decodeError ("Could not read that image: " ++ msg)), false)
  | .ok => (captionHandle reply, true)

/-! ## Helper lemmas -/

/-- The fallback loop is the first match in label order: `find?`. -/
theorem heuristicScan_eq_find (labels : List String) (low : String) :
    heuristicScan labels low =
      match labels.find? (fun L => strIn (asciiLower L) low) with
      | some L => (L, 3/5)
      | none => ("Other", 3/10) := by
  induction labels with
  | nil => rfl
  | cons L rest ih =>
    by_cases hm : strIn (asciiLower L) low = true
    · simp only [heuristicScan]
      rw [if_pos hm]
      simp [List.find?, hm]
    · have hm' : strIn (asciiLower L) low = false := by
        cases hb : strIn (asciiLower L) low
        · rfl
        · exact absurd hb hm
      simp only [heuristicScan]
      rw [if_neg hm]
      simp only [List.find?, hm']
      exact ih

/-- The fallback result is a scanned label with confidence 0.6, or the
literal `("Other", 0.3)`. -/
theorem heuristicScan_mem_or (labels : List String) (low : String) :
    ((heuristicScan labels low).1 ∈ labels ∧ (heuristicScan labels low).2 = 3/5) ∨
      heuristicScan labels low = ("Other", 3/10) := by
  induction labels with
  | nil => exact Or.inr rfl
  | cons L rest ih =>
    by_cases hm : strIn (asciiLower L) low = true
    · left
      simp only [heuristicScan]
      rw [if_pos hm]
      exact ⟨List.mem_cons_self L rest, rfl⟩
    · simp only [heuristicScan]
      rw [if_neg hm]
      rcases ih with ⟨h1, h2⟩ | h
      · exact Or.inl ⟨List.mem_cons_of_mem _ h1, h2⟩
      · exact Or.inr h

/-- A non-empty needle is not a substring of the empty string. -/
theorem strIn_lower_empty (L : String) (h : L ≠ "") :
    strIn (asciiLower L) "" = false := by
  show (L.data.map lowerChar).isEmpty = false
  cases hc : L.data with
  | nil => exact absurd (String.ext hc) h
  | cons c t => rfl

/-- `strip` is the identity on a list with non-whitespace ends. -/
theorem stripList_of_ends (l : List Char) (c d : Char)
    (h1 : l.head? = some c) (hc : isPyWs c = false)
    (h2 : l.getLast? = some d) (hd : isPyWs d = false) :
    stripList l = l := by
  have e1 : l.dropWhile isPyWs = l := by
    cases l with
    | nil => rfl
    | cons a t =>
      have ha : a = c := by simpa using h1
      subst ha
      simp [List.dropWhile_cons, hc]
  have e2 : l.reverse.dropWhile isPyWs = l.reverse := by
    cases hr : l.reverse with
    | nil => rfl
    | cons a t =>
      have ha : a = d := by
        have hg := List.head?_reverse l
        rw [hr, h2] at hg
        simpa using hg
      subst ha
      simp [List.dropWhile_cons, hd]
  unfold stripList
  rw [e1, e2, List.reverse_reverse]

/-- `startsWithL` decides list prefixing. -/
theorem startsWithL_iff (n h : List Char) : startsWithL n h = true ↔ n <+: h := by
  induction n generalizing h with
  | nil => simp [startsWithL]
  | cons a as ih =>
    cases h with
    | nil => simp [startsWithL]
    | cons b bs => simp [startsWithL, List.cons_prefix_cons, ih, And.comm]

/-- `containsSub` decides the infix (substring) relation. -/
theorem containsSub_iff (n h : List Char) : containsSub n h = true ↔ n <:+: h := by
  induction h with
  | nil => simp [containsSub, List.isEmpty_iff]
  | cons c t ih =>
    simp [containsSub, Bool.or_eq_true, startsWithL_iff, ih, List.infix_cons_iff]

/-- `strIn` decides the substring relation on the underlying lists. -/
theorem strIn_iff (n h : String) : strIn n h = true ↔ n.data <:+: h.data :=
  containsSub_iff n.data h.data

/-- Every member of a joined list occurs inside the join. -/
theorem joinSep_mem_decomp (sep : String) (xs : List String) (x : String)
    (h : x ∈ xs) : ∃ a b : String, joinSep sep xs = a ++ x ++ b := by
  induction xs with
  | nil => cases h
  | cons y rest ih =>
    rcases List.mem_cons.mp h with rfl | hmem
    · cases rest with
      | nil => exact ⟨"", "", by apply String.ext; simp [joinSep, String.data_append]⟩
      | cons z t =>
        refine ⟨"", sep ++ joinSep sep (z :: t), ?_⟩
        apply String.ext
        simp [joinSep, String.data_append, List.append_assoc]
    · cases rest with
      | nil => cases hmem
      | cons z t =>
        obtain ⟨a, b, hab⟩ := ih hmem
        refine ⟨y ++ sep ++ a, b, ?_⟩
        apply String.ext
        have := congrArg String.data hab
        simp only [joinSep, String.data_append] at this ⊢
        simp [this, List.append_assoc]

/-- A clean field needs no quoting: `csv.writer` emits it unchanged. -/
theorem csvField_clean (s : String) (h : cleanField s) : csvField s = s := by
  have hq : csvNeedsQuote s = false := by
    unfold csvNeedsQuote
    simp only [List.any_eq_false]
    intro c hc
    obtain ⟨h1, h2, h3, h4⟩ := h c hc
    simp [h1, h2, h3, h4]
  simp [csvField, hq]

/-- A row of clean fields is the plain comma-join plus CRLF. -/
theorem csvRow_clean (fields : List String) (h : ∀ f ∈ fields, cleanField f) :
    csvRow fields = joinSep "," fields ++ "\r\n" := by
  unfold csvRow
  have hmap : fields.map csvField = fields := by
    have h1 : fields.map csvField = fields.map id :=
      List.map_congr_left (fun f hf => csvField_clean f (h f hf))
    rw [h1, List.map_id]
  rw [hmap]

/-- A comma-join of clean fields contains no CR and no LF. -/
theorem joinSep_comma_chars (fs : List String) (h : ∀ f ∈ fs, cleanField f) :
    ∀ c ∈ (joinSep "," fs).data, c ≠ '\r' ∧ c ≠ '\n' := by
  induction fs with
  | nil =>
    intro c hc
    exact absurd hc (List.not_mem_nil c)
  | cons x rest ih =>
    cases rest with
    | nil =>
      intro c hc
      have := h x (List.mem_cons_self x []) c hc
      exact ⟨this.2.2.1, this.2.2.2⟩
    | cons y t =>
      intro c hc
      simp only [joinSep, String.data_append] at hc
      rcases List.mem_append.mp hc with h1 | h2
      · rcases List.mem_append.mp h1 with hx | hcomma
        · have := h x (List.mem_cons_self x (y :: t)) c hx
          exact ⟨this.2.2.1, this.2.2.2⟩
        · have hcc : c = ',' := by simpa using hcomma
          subst hcc
          exact ⟨by decide, by decide⟩
      · exact ih (fun f hf => h f (List.mem_cons_of_mem _ hf)) c h2

/-! ## Claims -/

/-- C3: for every raw response string on which strict JSON parsing
fails and every labelSet, the interpreter returns the first label in
caller-supplied labelSet order whose lower-cased form is a substring of
the lower-cased raw text, with confidence exactly 0.6; if no label
matches it returns `("Other", 0.3)`; in particular raw text
"This looks like Spam to me" with labelSet `["Billing","Spam"]` yields
`("Spam", 0.6)`. -/
theorem C3_fallback_first_match :
    (∀ (out : String) (labels : List String), json_loads out = none →
      interpret out labels =
        match labels.find? (fun L => strIn (asciiLower L) (asciiLower out)) with
        | some L => (L, 3/5)
        | none => ("Other", 3/10)) ∧
    interpret "This looks like Spam to me" ["Billing", "Spam"] = ("Spam", 3/5) := by
  constructor
  · intro out labels hj
    have hs : strictParse out = none := by
      simp only [strictParse, hj]
    simp only [interpret, hs]
    exact heuristicScan_eq_find labels (asciiLower out)
  · rfl

/-- Witness for C3 at the concrete malformed input `not json`. -/
theorem C3_fallback_first_match_witness :
    interpret "not json" ["Billing", "Spam"] =
      match ["Billing", "Spam"].find?
          (fun L => strIn (asciiLower L) (asciiLower "not json")) with
      | some L => (L, 3/5)
      | none => ("Other", 3/10) :=
  C3_fallback_first_match.1 "not json" ["Billing", "Spam"] rfl

/-- C7: every text-classification request is a single POST to
`<base>/api/generate` whose JSON body is exactly
`\x7bmodel, prompt, options:\x7btemperature:0.0, num_ctx:2048\x7d, stream:false\x7d`,
issued with a 120-second timeout. -/
theorem C7_request_shape :
    ∀ (model text : String) (labels : List String)
      (shots : List (String × String)),
      (classifyRequest model text labels shots).url = OLLAMA_BASE ++ "/api/generate" ∧
      requestBodyJson (classifyRequest model text labels shots) =
        Json.obj [("model", .str model),
                  ("prompt", .str (buildPrompt text labels shots)),
                  ("options", .obj [("temperature", .num ⟨0, 0⟩),
                                    ("num_ctx", .num ⟨2048, 0⟩)]),
                  ("stream", .bool false)] ∧
      (classifyRequest model text labels shots).stream = false ∧
      (classifyRequest model text labels shots).timeoutSeconds = 120 ∧
      JNum.toQ (classifyRequest model text labels shots).options.temperature = 0 ∧
      (classifyRequest model text labels shots).options.num_ctx = 2048 := by
  intro model text labels shots
  refine ⟨rfl, rfl, rfl, rfl, ?_, rfl⟩
  norm_num [JNum.toQ, classifyRequest]

/-- C9: in the captioning flow, an image whose decode fails is reported
as a decode error and no caption request is issued; and a success reply
whose `response` field is absent or empty after trimming is reported as
"no caption produced" rather than failing. -/
theorem C9_caption_degradation :
    (∀ (msg : String) (reply : HttpOutcome),
      imageFlow (.fail msg) reply =
        (some (.decodeError ("Could not read that image: " ++ msg)), false)) ∧
    (∀ (code : Nat) (body : String) (kvs : List (String × Json)),
      ¬(400 ≤ code ∧ code < 600) →
      json_loads body = some (.obj kvs) →
      (lookupLast kvs "response" = none ∨
        ∃ s, lookupLast kvs "response" = some (.str s) ∧ pyStrip s = "") →
      imageFlow .ok (.response code body) = (some .noCaption, true)) := by
  constructor
  · intro msg reply
    rfl
  · intro code body kvs herr hj hresp
    show (captionHandle (.response code body), true) = (some .noCaption, true)
    have hch : captionHandle (.response code body) = some .noCaption := by
      simp only [captionHandle]
      rw [if_neg herr, hj]
      show (match (if pyTruthy ((lookupLast kvs "response").getD Json.null) = true
                   then (lookupLast kvs "response").getD Json.null
                   else Json.str "") with
            | Json.str s =>
              some (if pyStrip s ≠ "" then CaptionReport.captionShown (pyStrip s)
                    else CaptionReport.noCaption)
            | _ => none) = some CaptionReport.noCaption
      rcases hresp with hnone | ⟨s, hsome, hstrip⟩
      · rw [hnone]
        rfl
      · rw [hsome]
        by_cases hs : s = ""
        · subst hs
          rfl
        · simp [Option.getD, pyTruthy, hs, hstrip]
    rw [hch]

/-- Witness for C9 at a success reply with empty JSON body (no
`response` key present). -/
theorem C9_caption_degradation_witness :
    imageFlow .ok (.response 200 "\x7b\x7d") = (some .noCaption, true) :=
  C9_caption_degradation.2 200 "\x7b\x7d" [] (by norm_num) rfl (Or.inl rfl)

/-- C10: a successful HTTP response whose JSON body lacks the
`response` key makes `classify_text` substitute the empty string, so
with only non-empty labels the result is exactly
`("Other", 0.3, "")`. -/
theorem C10_missing_response_key :
    ∀ (labels : List String) (code : Nat) (body : String)
      (kvs : List (String × Json)),
      code ≠ 404 → ¬(400 ≤ code ∧ code < 600) →
      json_loads body = some (.obj kvs) →
      lookupLast kvs "response" = none →
      (∀ L ∈ labels, L ≠ "") →
      classify_text labels (.response code body) = some ("Other", 3/10, "") := by
  intro labels code body kvs h404 herr hj hr hne
  have hcls : classify_text labels (.response code body) =
      handleSuccessBody labels body := by
    simp only [classify_text]
    rw [if_neg h404, if_neg herr]
  rw [hcls]
  simp only [handleSuccessBody, hj, hr, Option.getD]
  show some ((interpret "" labels).1, (interpret "" labels).2, "") =
    some ("Other", 3/10, "")
  have hint : interpret "" labels = ("Other", 3/10) := by
    show heuristicScan labels "" = ("Other", 3/10)
    rw [heuristicScan_eq_find]
    have hfind : labels.find? (fun L => strIn (asciiLower L) "") = none := by
      apply List.find?_eq_none.mpr
      intro x hx hcon
      simp only [strIn_lower_empty x (hne x hx)] at hcon
      exact Bool.false_ne_true hcon
    rw [hfind]
  rw [hint]

/-- Witness for C10: a 200 reply with body `\x7b\x7d`. -/
theorem C10_missing_response_key_witness :
    classify_text ["Billing"] (.response 200 "\x7b\x7d") =
      some ("Other", 3/10, "") :=
  C10_missing_response_key ["Billing"] 200 "\x7b\x7d" [] (by norm_num)
    (by norm_num) rfl rfl (by decide)

/-- C1 (amended): every result of `classify_text` carries a label that
is a member of the labelSet, the sentinel "Other" or the sentinel
"ERROR" together with a confidence in [0,1] — **except** when the
(stripped) raw response strictly parses, in which case the label and
confidence are taken unchecked from the model's JSON object and are
unconstrained. -/
theorem C1_label_confidence_invariant :
    ∀ (labels : List String) (h : HttpOutcome) (l : String) (c : ℚ)
      (raw : String),
      classify_text labels h = some (l, c, raw) →
      ((l ∈ labels ∨ l = "Other" ∨ l = "ERROR") ∧ 0 ≤ c ∧ c ≤ 1) ∨
        strictParse raw = some (l, c) := by
  intro labels h l c raw hres
  cases h with
  | transportError e =>
    simp only [classify_text, Option.some.injEq, Prod.mk.injEq] at hres
    obtain ⟨h1, h2, h3⟩ := hres
    subst h1
    subst h2
    exact Or.inl ⟨Or.inr (Or.inr rfl), by norm_num⟩
  | response code body =>
    simp only [classify_text] at hres
    by_cases h404 : code = 404
    · rw [if_pos h404] at hres
      simp only [Option.some.injEq, Prod.mk.injEq] at hres
      obtain ⟨h1, h2, h3⟩ := hres
      subst h1
      subst h2
      exact Or.inl ⟨Or.inr (Or.inr rfl), by norm_num⟩
    · rw [if_neg h404] at hres
      by_cases herr : 400 ≤ code ∧ code < 600
      · rw [if_pos herr] at hres
        simp only [Option.some.injEq, Prod.mk.injEq] at hres
        obtain ⟨h1, h2, h3⟩ := hres
        subst h1
        subst h2
        exact Or.inl ⟨Or.inr (Or.inr rfl), by norm_num⟩
      · rw [if_neg herr] at hres
        unfold handleSuccessBody at hres
        cases hj : json_loads body with
        | none =>
          rw [hj] at hres
          exact Option.noConfusion hres
        | some v =>
          rw [hj] at hres
          cases v with
          | null => exact Option.noConfusion hres
          | bool b => exact Option.noConfusion hres
          | num j => exact Option.noConfusion hres
          | str s => exact Option.noConfusion hres
          | arr xs => exact Option.noConfusion hres
          | obj kvs =>
            have hres' :
                (match (lookupLast kvs "response").getD (Json.str "") with
                 | Json.str s =>
                   some ((interpret (pyStrip s) labels).1,
                         (interpret (pyStrip s) labels).2, pyStrip s)
                 | _ => none) = some (l, c, raw) := hres
            clear hres
            cases hr : (lookupLast kvs "response").getD (.str "") with
            | null => rw [hr] at hres'; exact Option.noConfusion hres'
            | bool b => rw [hr] at hres'; exact Option.noConfusion hres'
            | num j => rw [hr] at hres'; exact Option.noConfusion hres'
            | arr xs => rw [hr] at hres'; exact Option.noConfusion hres'
            | obj kvs2 => rw [hr] at hres'; exact Option.noConfusion hres'
            | str s =>
              rw [hr] at hres'
              simp only [Option.some.injEq, Prod.mk.injEq] at hres'
              obtain ⟨h1, h2, h3⟩ := hres'
              subst h1
              subst h2
              subst h3
              cases hsp : strictParse (pyStrip s) with
              | some lc =>
                right
                simp only [interpret, hsp]
              | none =>
                left
                simp only [interpret, hsp]
                rcases heuristicScan_mem_or labels (asciiLower (pyStrip s)) with
                  ⟨hm, hc⟩ | ho
                · exact ⟨Or.inl hm, by rw [hc]; norm_num, by rw [hc]; norm_num⟩
                · rw [ho]
                  exact ⟨Or.inr (Or.inl rfl), by norm_num⟩

/-- Witness for C1 on the transport-error path. -/
theorem C1_label_confidence_invariant_witness :
    ((("ERROR" : String) ∈ ([] : List String) ∨ ("ERROR" : String) = "Other" ∨
        ("ERROR" : String) = "ERROR") ∧ (0 : ℚ) ≤ 0 ∧ (0 : ℚ) ≤ 1) ∨
      strictParse "Request failed: x" = some ("ERROR", 0) :=
  C1_label_confidence_invariant [] (.transportError "x") "ERROR" 0
    "Request failed: x" rfl

/-- C1 counterexample: the claim as stated is false — a 200 reply whose
model output is the JSON object
`\x7b"label": "Banana", "confidence": 2\x7d` makes `classify_text`
return the label "Banana" (not in the labelSet, nor "Other"/"ERROR")
with confidence 2, outside [0,1]. -/
theorem C1_counterexample :
    classify_text ["Billing"]
        (.response 200
          "\x7b\"response\": \"\x7b\\\"label\\\": \\\"Banana\\\", \\\"confidence\\\": 2\x7d\"\x7d") =
      some ("Banana", JNum.toQ ⟨2, 0⟩,
        "\x7b\"label\": \"Banana\", \"confidence\": 2\x7d") ∧
    JNum.toQ ⟨2, 0⟩ = 2 ∧
    ("Banana" ∉ ["Billing"]) ∧ ("Banana" : String) ≠ "Other" ∧
    ("Banana" : String) ≠ "ERROR" ∧ ¬((2 : ℚ) ≤ 1) := by
  refine ⟨rfl, ?_, by decide, by decide, by decide, by norm_num⟩
  norm_num [JNum.toQ]

/-- C2: every transport-level or HTTP-status failure (status 400–599,
the statuses `raise_for_status()` raises on, 404 included) yields
`("ERROR", 0.0, "Request failed: …")` and never raises to the caller;
in the 404 case the message mentions the configured base address. -/
theorem C2_error_encoding :
    ∀ (labels : List String) (h : HttpOutcome), isFailureOutcome h →
      (classify_text labels h).isSome = true ∧
      ∃ msg, classify_text labels h = some ("ERROR", 0, "Request failed: " ++ msg) ∧
        ∀ body, h = .response 404 body → strIn OLLAMA_BASE msg = true := by
  intro labels h hfail
  cases h with
  | transportError e =>
    refine ⟨rfl, e, rfl, ?_⟩
    intro body hcon
    exact HttpOutcome.noConfusion hcon
  | response code body =>
    by_cases h404 : code = 404
    · subst h404
      refine ⟨rfl, notFound404Msg, rfl, ?_⟩
      intro body' hb
      rfl
    · have herr : 400 ≤ code ∧ code < 600 := hfail
      refine ⟨?_, httpStatusMsg code, ?_, ?_⟩
      · simp only [classify_text]
        rw [if_neg h404, if_pos herr]
        rfl
      · simp only [classify_text]
        rw [if_neg h404, if_pos herr]
      · intro body' hb
        injection hb with hcode hbody
        exact absurd hcode h404

/-- Witness for C2 at a simulated 404. -/
theorem C2_error_encoding_witness :
    (classify_text ["Billing"] (.response 404 "nf")).isSome = true ∧
    ∃ msg, classify_text ["Billing"] (.response 404 "nf") =
        some ("ERROR", 0, "Request failed: " ++ msg) ∧
      ∀ body, HttpOutcome.response 404 "nf" = .response 404 body →
        strIn OLLAMA_BASE msg = true :=
  C2_error_encoding ["Billing"] (.response 404 "nf") ⟨by norm_num, by norm_num⟩

/-- C6 (amended): on the success path the rawResponse component is the
endpoint body's `response` string with leading and trailing whitespace
stripped — verbatim exactly when the model output carries no
surrounding whitespace. -/
theorem C6_raw_response_stripped :
    ∀ (labels : List String) (code : Nat) (body : String)
      (kvs : List (String × Json)) (s : String),
      code ≠ 404 → ¬(400 ≤ code ∧ code < 600) →
      json_loads body = some (.obj kvs) →
      lookupLast kvs "response" = some (.str s) →
      ∃ lc : String × ℚ,
        classify_text labels (.response code body) = some (lc.1, lc.2, pyStrip s) := by
  intro labels code body kvs s h404 herr hj hr
  refine ⟨interpret (pyStrip s) labels, ?_⟩
  simp only [classify_text]
  rw [if_neg h404, if_neg herr]
  simp only [handleSuccessBody, hj, hr, Option.getD]

/-- Witness for C6 at a 200 reply whose model output is `" hi "`. -/
theorem C6_raw_response_stripped_witness :
    ∃ lc : String × ℚ,
      classify_text [] (.response 200 "\x7b\"response\": \" hi \"\x7d") =
        some (lc.1, lc.2, pyStrip " hi ") :=
  C6_raw_response_stripped [] 200 "\x7b\"response\": \" hi \"\x7d"
    [("response", .str " hi ")] " hi " (by norm_num) (by norm_num) rfl rfl

/-- C6 counterexample: the claim as stated is false — for the body
`\x7b"response": " hi "\x7d` the returned rawResponse is `"hi"`, not
the verbatim `" hi "`. -/
theorem C6_counterexample :
    json_loads "\x7b\"response\": \" hi \"\x7d" =
        some (.obj [("response", .str " hi ")]) ∧
    classify_text ["Billing"] (.response 200 "\x7b\"response\": \" hi \"\x7d") =
        some ("Other", 3/10, "hi") ∧
    ("hi" : String) ≠ " hi " := by
  refine ⟨rfl, ?_, by decide⟩
  rfl

/-- C4 (amended): for every raw response string that parses as a JSON
object *and whose confidence field (default 0.5) float-converts
successfully*, the interpreter returns the string conversion of the
object's "label" field (default "Other") with that converted
confidence; in particular `\x7b"label":"Billing","confidence":0.9\x7d`
against a labelSet containing "Billing" yields exactly
("Billing", 0.9). -/
theorem C4_strict_parse :
    (∀ (raw : String) (labels : List String) (kvs : List (String × Json))
      (j : JNum),
      json_loads raw = some (.obj kvs) →
      floatConv ((lookupLast kvs "confidence").getD (.num ⟨5, 1⟩)) = some j →
      interpret raw labels =
        (pyStr ((lookupLast kvs "label").getD (.str "Other")), j.toQ)) ∧
    interpret "\x7b\"label\":\"Billing\",\"confidence\":0.9\x7d" ["Billing"] =
      ("Billing", 9/10) := by
  constructor
  · intro raw labels kvs j hj hf
    have hs : strictParse raw =
        some (pyStr ((lookupLast kvs "label").getD (.str "Other")), j.toQ) := by
      simp only [strictParse, hj, hf]
    simp only [interpret, hs]
  · have hs : strictParse "\x7b\"label\":\"Billing\",\"confidence\":0.9\x7d" =
        some ("Billing", JNum.toQ ⟨9, 1⟩) := rfl
    simp only [interpret, hs]
    norm_num [JNum.toQ, Prod.mk.injEq]

/-- Witness for C4 at an object without a confidence field (the 0.5
default). -/
theorem C4_strict_parse_witness :
    interpret "\x7b\"label\": \"X\"\x7d" ["Billing"] =
      (pyStr ((lookupLast [("label", Json.str "X")] "label").getD (.str "Other")),
        JNum.toQ ⟨5, 1⟩) :=
  C4_strict_parse.1 "\x7b\"label\": \"X\"\x7d" ["Billing"]
    [("label", Json.str "X")] ⟨5, 1⟩ rfl rfl

/-- C4 counterexample: the claim as stated is false — the raw string
`\x7b"label": "A", "confidence": null\x7d` parses as a JSON object
whose label field str-converts to "A", yet the interpreter returns
("Other", 0.3), because `float(None)` raises and the heuristic fallback
runs instead. -/
theorem C4_counterexample :
    json_loads "\x7b\"label\": \"A\", \"confidence\": null\x7d" =
        some (.obj [("label", .str "A"), ("confidence", .null)]) ∧
    pyStr (.str "A") = "A" ∧
    interpret "\x7b\"label\": \"A\", \"confidence\": null\x7d" ["Billing"] =
      ("Other", 3/10) ∧
    ("Other" : String) ≠ "A" :=
  ⟨rfl, rfl, rfl, by decide⟩

/-- C8: saving a record to a fresh path writes the header row
`text,label,subject,from` followed by exactly one data row matching the
input; saving a second record appends exactly one more data row and
does not write the header again.  Fields are assumed free of CSV
metacharacters, so each data row is the plain comma-join of the four
(stripped) fields and contains no line terminator. -/
theorem C8_csv_save :
    ∀ r1 r2 : LabeledRecord,
      (∀ f ∈ recordFields r1, cleanField f) →
      (∀ f ∈ recordFields r2, cleanField f) →
      ∃ d1 d2 : String,
        saveLabeled none r1 = "text,label,subject,from" ++ "\r\n" ++ d1 ++ "\r\n" ∧
        saveLabeled (some (saveLabeled none r1)) r2 =
          "text,label,subject,from" ++ "\r\n" ++ d1 ++ "\r\n" ++ d2 ++ "\r\n" ∧
        d1 = joinSep "," (recordFields r1) ∧
        d2 = joinSep "," (recordFields r2) ∧
        (∀ c ∈ d1.data, c ≠ '\r' ∧ c ≠ '\n') ∧
        (∀ c ∈ d2.data, c ≠ '\r' ∧ c ≠ '\n') := by
  intro r1 r2 h1 h2
  have hrow1 := csvRow_clean (recordFields r1) h1
  have hrow2 := csvRow_clean (recordFields r2) h2
  have hh : csvHeader = "text,label,subject,from" ++ "\r\n" := rfl
  have e1 : saveLabeled none r1 =
      "text,label,subject,from" ++ "\r\n" ++ joinSep "," (recordFields r1) ++ "\r\n" := by
    show csvHeader ++ csvRow (recordFields r1) = _
    rw [hrow1, hh]
    apply String.ext
    simp [String.data_append, List.append_assoc]
  have e2 : saveLabeled (some (saveLabeled none r1)) r2 =
      "text,label,subject,from" ++ "\r\n" ++ joinSep "," (recordFields r1) ++ "\r\n" ++
        joinSep "," (recordFields r2) ++ "\r\n" := by
    show saveLabeled none r1 ++ csvRow (recordFields r2) = _
    rw [e1, hrow2]
    apply String.ext
    simp [String.data_append, List.append_assoc]
  exact ⟨joinSep "," (recordFields r1), joinSep "," (recordFields r2), e1, e2,
    rfl, rfl, joinSep_comma_chars _ h1, joinSep_comma_chars _ h2⟩

/-- Witness for C8 at two concrete records. -/
theorem C8_csv_save_witness :
    ∃ d1 d2 : String,
      saveLabeled none ⟨"hello", "Spam", "", ""⟩ =
        "text,label,subject,from" ++ "\r\n" ++ d1 ++ "\r\n" ∧
      saveLabeled (some (saveLabeled none ⟨"hello", "Spam", "", ""⟩))
          ⟨"bye", "Billing", "s", "f"⟩ =
        "text,label,subject,from" ++ "\r\n" ++ d1 ++ "\r\n" ++ d2 ++ "\r\n" ∧
      d1 = joinSep "," (recordFields ⟨"hello", "Spam", "", ""⟩) ∧
      d2 = joinSep "," (recordFields ⟨"bye", "Billing", "s", "f"⟩) ∧
      (∀ c ∈ d1.data, c ≠ '\r' ∧ c ≠ '\n') ∧
      (∀ c ∈ d2.data, c ≠ '\r' ∧ c ≠ '\n') :=
  C8_csv_save ⟨"hello", "Spam", "", ""⟩ ⟨"bye", "Billing", "s", "f"⟩
    (by unfold cleanField; decide) (by unfold cleanField; decide)

/-- C5: for every non-empty labelSet (no duplicates after trimming) and
every input text, the prompt is the instruction block, the few-shot
block and the query line joined by blank lines; the instruction block
embeds the rendered label list, in which every label is inserted
exactly once (the rendering maps over the labelSet once), and contains
every label as a substring; the prompt ends with the literal input text
followed by "Label:"; and the prompt carries no leading or trailing
whitespace (the final `.strip()` is the identity here, since the prompt
starts with `<` and ends with `:`). -/
theorem C5_prompt_builder :
    ∀ (text : String) (labels : List String) (shots : List (String × String)),
      labels ≠ [] → (labels.map pyStrip).Nodup →
      buildPrompt text labels shots =
          "<<SYS>>" ++ systemBlock labels ++ "<<SYS>>\n\n" ++ shotsBlock shots ++
            "\n\n" ++ userBlock text ∧
      systemBlock labels =
          "You are an expert email text classifier.\n" ++
            "Choose exactly one label from " ++ pyReprStrList labels ++ ".\n" ++
            "Respond ONLY as compact JSON: \x7b\"label\":\"<one>\",\"confidence\":0-1\x7d.\n" ++
            "Do not include extra keys or explanations" ∧
      pyReprStrList labels =
          "[" ++ joinSep ", " (labels.map fun x => "'" ++ x ++ "'") ++ "]" ∧
      userBlock text = "Text: " ++ text ++ "\nLabel:" ∧
      (∀ L ∈ labels, strIn L (systemBlock labels) = true) ∧
      (∀ L ∈ labels, strIn L (buildPrompt text labels shots) = true) ∧
      (text ++ "\nLabel:").data <:+ (buildPrompt text labels shots).data ∧
      pyStrip (buildPrompt text labels shots) = buildPrompt text labels shots := by
  intro text labels shots hne hnodup
  have hhead : ("<<SYS>>" ++ systemBlock labels ++ "<<SYS>>\n\n" ++
      shotsBlock shots ++ "\n\n" ++ userBlock text).data.head? = some '<' := rfl
  have hlastUser : ("\nLabel:" : String).data ≠ [] := by decide
  have huser_ne : (userBlock text).data ≠ [] := by
    show (("Text: " ++ text ++ "\nLabel:") : String).data ≠ []
    rw [String.data_append]
    intro hnil
    exact hlastUser (List.append_eq_nil.mp hnil).2
  have hlast : ("<<SYS>>" ++ systemBlock labels ++ "<<SYS>>\n\n" ++
      shotsBlock shots ++ "\n\n" ++ userBlock text).data.getLast? = some ':' := by
    rw [String.data_append, List.getLast?_append_of_ne_nil _ huser_ne]
    show (("Text: " ++ text ++ "\nLabel:") : String).data.getLast? = some ':'
    rw [String.data_append, List.getLast?_append_of_ne_nil _ hlastUser]
    rfl
  have hstrip : stripList ("<<SYS>>" ++ systemBlock labels ++ "<<SYS>>\n\n" ++
      shotsBlock shots ++ "\n\n" ++ userBlock text).data =
      ("<<SYS>>" ++ systemBlock labels ++ "<<SYS>>\n\n" ++ shotsBlock shots ++
        "\n\n" ++ userBlock text).data :=
    stripList_of_ends _ '<' ':' hhead (by decide) hlast (by decide)
  have h1 : buildPrompt text labels shots =
      "<<SYS>>" ++ systemBlock labels ++ "<<SYS>>\n\n" ++ shotsBlock shots ++
        "\n\n" ++ userBlock text := String.ext hstrip
  have h5 : ∀ L ∈ labels, strIn L (systemBlock labels) = true := by
    intro L hL
    obtain ⟨a, b, hab⟩ := joinSep_mem_decomp ", "
      (labels.map fun x => "'" ++ x ++ "'") ("'" ++ L ++ "'")
      (List.mem_map_of_mem _ hL)
    have hsys : systemBlock labels =
        ("You are an expert email text classifier.\n" ++
          "Choose exactly one label from " ++ "[" ++ a ++ "'") ++ L ++
          ("'" ++ b ++ "]" ++ ".\n" ++
            "Respond ONLY as compact JSON: \x7b\"label\":\"<one>\",\"confidence\":0-1\x7d.\n" ++
            "Do not include extra keys or explanations") := by
      have hs2 : pyReprStrList labels =
          "[" ++ (a ++ ("'" ++ L ++ "'") ++ b) ++ "]" := by
        rw [show pyReprStrList labels =
          "[" ++ joinSep ", " (labels.map fun x => "'" ++ x ++ "'") ++ "]" from rfl, hab]
      rw [show systemBlock labels =
        "You are an expert email text classifier.\n" ++
          "Choose exactly one label from " ++ pyReprStrList labels ++ ".\n" ++
          "Respond ONLY as compact JSON: \x7b\"label\":\"<one>\",\"confidence\":0-1\x7d.\n" ++
          "Do not include extra keys or explanations" from rfl, hs2]
      apply String.ext
      simp [String.data_append, List.append_assoc]
    rw [strIn_iff, hsys]
    exact ⟨("You are an expert email text classifier.\n" ++
        "Choose exactly one label from " ++ "[" ++ a ++ "'").data,
      ("'" ++ b ++ "]" ++ ".\n" ++
        "Respond ONLY as compact JSON: \x7b\"label\":\"<one>\",\"confidence\":0-1\x7d.\n" ++
        "Do not include extra keys or explanations").data,
      by simp [String.data_append, List.append_assoc]⟩
  have h6 : ∀ L ∈ labels, strIn L (buildPrompt text labels shots) = true := by
    intro L hL
    have hinf : L.data <:+: (systemBlock labels).data := (strIn_iff _ _).mp (h5 L hL)
    have houter : (systemBlock labels).data <:+:
        (buildPrompt text labels shots).data := by
      rw [h1]
      exact ⟨("<<SYS>>" : String).data,
        (("<<SYS>>\n\n" : String) ++ shotsBlock shots ++ "\n\n" ++ userBlock text).data,
        by simp [String.data_append, List.append_assoc]⟩
    exact (strIn_iff _ _).mpr (hinf.trans houter)
  have h7 : (text ++ "\nLabel:").data <:+ (buildPrompt text labels shots).data := by
    rw [h1]
    exact ⟨("<<SYS>>" ++ systemBlock labels ++ "<<SYS>>\n\n" ++ shotsBlock shots ++
        "\n\n" ++ "Text: ").data,
      by simp [userBlock, String.data_append, List.append_assoc]⟩
  have h8 : pyStrip (buildPrompt text labels shots) = buildPrompt text labels shots := by
    have e : pyStrip ("<<SYS>>" ++ systemBlock labels ++ "<<SYS>>\n\n" ++
        shotsBlock shots ++ "\n\n" ++ userBlock text) =
        "<<SYS>>" ++ systemBlock labels ++ "<<SYS>>\n\n" ++ shotsBlock shots ++
          "\n\n" ++ userBlock text := by
      show (⟨stripList ("<<SYS>>" ++ systemBlock labels ++ "<<SYS>>\n\n" ++
        shotsBlock shots ++ "\n\n" ++ userBlock text).data⟩ : String) = _
      rw [hstrip]
    rw [h1, e]
  exact ⟨h1, rfl, rfl, rfl, h5, h6, h7, h8⟩

/-- Witness for C5 at the labelSet `["Billing", "Spam"]`. -/
theorem C5_prompt_builder_witness :
    buildPrompt "Hi" ["Billing", "Spam"] [] =
        "<<SYS>>" ++ systemBlock ["Billing", "Spam"] ++ "<<SYS>>\n\n" ++
          shotsBlock [] ++ "\n\n" ++ userBlock "Hi" ∧
      systemBlock ["Billing", "Spam"] =
          "You are an expert email text classifier.\n" ++
            "Choose exactly one label from " ++ pyReprStrList ["Billing", "Spam"] ++ ".\n" ++
            "Respond ONLY as compact JSON: \x7b\"label\":\"<one>\",\"confidence\":0-1\x7d.\n" ++
            "Do not include extra keys or explanations" ∧
      pyReprStrList ["Billing", "Spam"] =
          "[" ++ joinSep ", " (["Billing", "Spam"].map fun x => "'" ++ x ++ "'") ++ "]" ∧
      userBlock "Hi" = "Text: " ++ "Hi" ++ "\nLabel:" ∧
      (∀ L ∈ ["Billing", "Spam"], strIn L (systemBlock ["Billing", "Spam"]) = true) ∧
      (∀ L ∈ ["Billing", "Spam"], strIn L (buildPrompt "Hi" ["Billing", "Spam"] []) = true) ∧
      ("Hi" ++ "\nLabel:").data <:+ (buildPrompt "Hi" ["Billing", "Spam"] []).data ∧
      pyStrip (buildPrompt "Hi" ["Billing", "Spam"] []) =
        buildPrompt "Hi" ["Billing", "Spam"] [] :=
  C5_prompt_builder "Hi" ["Billing", "Spam"] [] (by decide) (by decide)

end Demo
